import Mathlib

/-!
Verification development for the budget-constrained autonomous exploration
engine of the deep-research repository (`src/2_openai/deep_research_challenge`).

Shallow embedding conventions:
* Python `int` is modelled as `ℤ` (arbitrary precision, signed).
* Python `float` is modelled as `ℚ`; all float arithmetic appearing in the
  embedded code is addition/multiplication/division/comparison, which the code
  applies uniformly on both sides of every comparison, so the rational model
  preserves every branching decision.
* Python `datetime` values are modelled by their ISO-8601 rendering (`Datetime`
  wraps the string produced by `isoformat`); the Python standard library
  guarantees `fromisoformat(d.isoformat()) == d`.
* Python sets of strings are modelled as duplicate-free lists built with
  `List.insert` / `List.erase`, where only membership is ever observed.
* Nondeterministic effects (`uuid.uuid4()`, `datetime.now()`, agent
  invocations) are passed in as explicit arguments.
-/

set_option maxHeartbeats 1600000

namespace DeepResearch

unseal Rat.add Rat.mul Rat.sub Rat.inv

/-- Python `int(x)` applied to a float: truncation toward zero. -/
def pyInt (q : ℚ) : ℤ := if 0 ≤ q then ⌊q⌋ else ⌈q⌉

/-! ## models.py: ResourceUsage -/

/-- `models.ResourceUsage` — tracks resource consumption. -/
structure ResourceUsage where
  tokens_used : ℤ := 0
  api_calls : ℤ := 0
  time_seconds : ℚ := 0
  deriving Repr, DecidableEq

/-- `ResourceUsage.add` — add another `ResourceUsage` to this one
(Python mutates in place; modelled as returning the updated value). -/
def ResourceUsage.add (self other : ResourceUsage) : ResourceUsage :=
  { tokens_used := self.tokens_used + other.tokens_used
    api_calls := self.api_calls + other.api_calls
    time_seconds := self.time_seconds + other.time_seconds }

/-! ## budget.py -/

/-- `budget.Operation` — a resource-consuming operation. -/
structure Operation where
  name : String
  estimated_tokens : ℤ
  estimated_api_calls : ℤ := 1
  estimated_time_seconds : ℚ := 0
  deriving Repr, DecidableEq

/-- `Operation.to_usage`. -/
def Operation.to_usage (op : Operation) : ResourceUsage :=
  { tokens_used := op.estimated_tokens
    api_calls := op.estimated_api_calls
    time_seconds := op.estimated_time_seconds }

/-- `budget.ResearchBudget` — resource limits for autonomous research. -/
structure ResearchBudget where
  max_tokens : ℤ
  max_time_seconds : ℚ
  max_api_calls : ℤ
  max_trail_depth : ℤ
  current_usage : ResourceUsage := {}
  trail_depth : ℤ := 0
  deriving Repr, DecidableEq

/-- `ResearchBudget.can_afford`: each Python guard reads
`used + estimate > max → False`, mirrored literally. -/
def ResearchBudget.can_afford (self : ResearchBudget) (operation : Operation) : Bool :=
  if self.max_tokens < self.current_usage.tokens_used + operation.estimated_tokens then false
  else if self.max_api_calls < self.current_usage.api_calls + operation.estimated_api_calls then false
  else if self.max_time_seconds < self.current_usage.time_seconds + operation.estimated_time_seconds then false
  else true

/-- `ResearchBudget.can_afford_trail`: `trail_depth < max_trail_depth`. -/
def ResearchBudget.can_afford_trail (self : ResearchBudget) : Bool :=
  decide (self.trail_depth < self.max_trail_depth)

/-- `ResearchBudget.consume` — unconditionally adds the operation's usage. -/
def ResearchBudget.consume (self : ResearchBudget) (operation : Operation) : ResearchBudget :=
  { self with current_usage := self.current_usage.add operation.to_usage }

/-- `ResearchBudget.consume_usage`. -/
def ResearchBudget.consume_usage (self : ResearchBudget) (usage : ResourceUsage) : ResearchBudget :=
  { self with current_usage := self.current_usage.add usage }

/-- `ResearchBudget.increment_trail_depth`. -/
def ResearchBudget.increment_trail_depth (self : ResearchBudget) : ResearchBudget :=
  { self with trail_depth := self.trail_depth + 1 }

/-- `ResearchBudget.decrement_trail_depth` — no-op at 0. -/
def ResearchBudget.decrement_trail_depth (self : ResearchBudget) : ResearchBudget :=
  if 0 < self.trail_depth then { self with trail_depth := self.trail_depth - 1 } else self

/-- `ResearchBudget.remaining` — elementwise `max(0, cap - used)`. -/
def ResearchBudget.remaining (self : ResearchBudget) : ResourceUsage :=
  { tokens_used := max 0 (self.max_tokens - self.current_usage.tokens_used)
    api_calls := max 0 (self.max_api_calls - self.current_usage.api_calls)
    time_seconds := max 0 (self.max_time_seconds - self.current_usage.time_seconds) }

/-- Return type of `utilization_percent` (a Python dict with four fixed keys). -/
structure UtilizationPercent where
  tokens : ℚ
  api_calls : ℚ
  time : ℚ
  trail_depth : ℚ
  deriving Repr, DecidableEq

/-- `ResearchBudget.utilization_percent` — percentages, 0 when the cap is 0. -/
def ResearchBudget.utilization_percent (self : ResearchBudget) : UtilizationPercent :=
  { tokens :=
      if 0 < self.max_tokens then
        (self.current_usage.tokens_used : ℚ) / (self.max_tokens : ℚ) * 100 else 0
    api_calls :=
      if 0 < self.max_api_calls then
        (self.current_usage.api_calls : ℚ) / (self.max_api_calls : ℚ) * 100 else 0
    time :=
      if 0 < self.max_time_seconds then
        self.current_usage.time_seconds / self.max_time_seconds * 100 else 0
    trail_depth :=
      if 0 < self.max_trail_depth then
        (self.trail_depth : ℚ) / (self.max_trail_depth : ℚ) * 100 else 0 }

/-- `ResearchBudget.is_exhausted` — any of the three usage dimensions at or
over its cap (`trail_depth` is not consulted). -/
def ResearchBudget.is_exhausted (self : ResearchBudget) : Bool :=
  decide (self.max_tokens ≤ self.current_usage.tokens_used) ||
  decide (self.max_api_calls ≤ self.current_usage.api_calls) ||
  decide (self.max_time_seconds ≤ self.current_usage.time_seconds)

/-- `ResearchBudget.is_near_limit` — `any(v >= threshold * 100)` over the four
utilization percentages. -/
def ResearchBudget.is_near_limit (self : ResearchBudget) (threshold : ℚ := 9/10) : Bool :=
  let util := self.utilization_percent
  decide (threshold * 100 ≤ util.tokens) ||
  decide (threshold * 100 ≤ util.api_calls) ||
  decide (threshold * 100 ≤ util.time) ||
  decide (threshold * 100 ≤ util.trail_depth)

/-- `ResearchBudget.allocate_for_trail` — new budget from a portion of the
remaining capacity; depth cap is `max(1, max_trail_depth - trail_depth - 1)`. -/
def ResearchBudget.allocate_for_trail (self : ResearchBudget) (percentage : ℚ := 1/5) :
    ResearchBudget :=
  let remaining := self.remaining
  { max_tokens := pyInt ((remaining.tokens_used : ℚ) * percentage)
    max_time_seconds := remaining.time_seconds * percentage
    max_api_calls := pyInt ((remaining.api_calls : ℚ) * percentage)
    max_trail_depth := max 1 (self.max_trail_depth - self.trail_depth - 1) }

/-- `ResearchBudget.create_default`. -/
def ResearchBudget.create_default : ResearchBudget :=
  { max_tokens := 50000, max_time_seconds := 300, max_api_calls := 50, max_trail_depth := 3 }

/-- `ResearchBudget.create_development`. -/
def ResearchBudget.create_development : ResearchBudget :=
  { max_tokens := 10000, max_time_seconds := 60, max_api_calls := 10, max_trail_depth := 1 }

/-- `ResearchBudget.create_production`. -/
def ResearchBudget.create_production : ResearchBudget :=
  { max_tokens := 200000, max_time_seconds := 600, max_api_calls := 200, max_trail_depth := 5 }

/-! ## models.py: enums, datetime, and the plain nested-map form -/

/-- `models.TrailStatus`. -/
inductive TrailStatus where
  | pending
  | active
  | completed
  | abandoned
  deriving Repr, DecidableEq

/-- `TrailStatus.value` (the Python enum's string value). -/
def TrailStatus.value : TrailStatus → String
  | .pending => "pending"
  | .active => "active"
  | .completed => "completed"
  | .abandoned => "abandoned"

/-- `TrailStatus(v)` — Python enum lookup by value, `ValueError` on unknown. -/
def TrailStatus.of_value (v : String) : Option TrailStatus :=
  if v == ("pending") then some .pending
  else if v == ("active") then some .active
  else if v == ("completed") then some .completed
  else if v == ("abandoned") then some .abandoned
  else Option.none

/-- `models.ResearchState`. -/
inductive ResearchState where
  | initializing
  | clarifying
  | planning
  | searching
  | evaluating
  | trail_following
  | synthesizing
  | completed
  | failed
  deriving Repr, DecidableEq

/-- `ResearchState.value`. -/
def ResearchState.value : ResearchState → String
  | .initializing => "initializing"
  | .clarifying => "clarifying"
  | .planning => "planning"
  | .searching => "searching"
  | .evaluating => "evaluating"
  | .trail_following => "trail_following"
  | .synthesizing => "synthesizing"
  | .completed => "completed"
  | .failed => "failed"

/-- `ResearchState(v)` — enum lookup by value. -/
def ResearchState.of_value (v : String) : Option ResearchState :=
  if v == ("initializing") then some .initializing
  else if v == ("clarifying") then some .clarifying
  else if v == ("planning") then some .planning
  else if v == ("searching") then some .searching
  else if v == ("evaluating") then some .evaluating
  else if v == ("trail_following") then some .trail_following
  else if v == ("synthesizing") then some .synthesizing
  else if v == ("completed") then some .completed
  else if v == ("failed") then some .failed
  else Option.none

/-- Python `datetime`, modelled by its ISO-8601 rendering: `isoformat` is
injective on datetimes and `datetime.fromisoformat` inverts it, so a datetime
is represented by the string `isoformat` would produce. -/
structure Datetime where
  iso : String
  deriving Repr, DecidableEq

/-- `datetime.isoformat`. -/
def Datetime.isoformat (d : Datetime) : String := d.iso

/-- `datetime.fromisoformat`. -/
def datetime_fromisoformat (s : String) : Datetime := ⟨s⟩

/-- The plain nested-map serialization form (Python dict/list/str/num values
produced by the `to_dict` methods). -/
inductive PyVal where
  | none
  | str (s : String)
  | int (n : ℤ)
  | float (q : ℚ)
  | boolean (b : Bool)
  | list (xs : List PyVal)
  | dict (fields : List (String × PyVal))

/-- Python dict key lookup (`data['k']` / `data.get('k')`). -/
def getKey : List (String × PyVal) → String → Option PyVal
  | [], _ => Option.none
  | (k, v) :: rest, key => if k == key then some v else getKey rest key

/-- Read a string value. -/
def PyVal.asStr : PyVal → Option String
  | .str s => some s
  | _ => Option.none

/-- Read an int value. -/
def PyVal.asInt : PyVal → Option ℤ
  | .int n => some n
  | _ => Option.none

/-- Read a float value. -/
def PyVal.asFloat : PyVal → Option ℚ
  | .float q => some q
  | _ => Option.none

/-- Read a list value. -/
def PyVal.asList : PyVal → Option (List PyVal)
  | .list xs => some xs
  | _ => Option.none

/-- Read a dict value. -/
def PyVal.asDict : PyVal → Option (List (String × PyVal))
  | .dict fields => some fields
  | _ => Option.none

/-- Read an optional string (`None` or `str`). -/
def PyVal.asOptStr : PyVal → Option (Option String)
  | .str s => some (some s)
  | .none => some Option.none
  | _ => Option.none

/-- Read a list of strings. -/
def PyVal.asStrList (v : PyVal) : Option (List String) := do
  let xs ← v.asList
  xs.mapM PyVal.asStr

/-- Read a dict of string values (`Dict[str, str]`). -/
def PyVal.asStrPairs (v : PyVal) : Option (List (String × String)) := do
  let d ← v.asDict
  d.mapM (fun p => (p.2.asStr).map (fun s => (p.1, s)))

/-- Required string field. -/
def reqStr (d : List (String × PyVal)) (k : String) : Option String :=
  (getKey d k).bind PyVal.asStr

/-- Required int field. -/
def reqInt (d : List (String × PyVal)) (k : String) : Option ℤ :=
  (getKey d k).bind PyVal.asInt

/-- Required float field. -/
def reqFloat (d : List (String × PyVal)) (k : String) : Option ℚ :=
  (getKey d k).bind PyVal.asFloat

/-- Int field with a dataclass default for a missing key. -/
def optIntD (d : List (String × PyVal)) (k : String) (dflt : ℤ) : Option ℤ :=
  match getKey d k with
  | some v => v.asInt
  | Option.none => some dflt

/-- Float field with a dataclass default for a missing key. -/
def optFloatD (d : List (String × PyVal)) (k : String) (dflt : ℚ) : Option ℚ :=
  match getKey d k with
  | some v => v.asFloat
  | Option.none => some dflt

/-- Dict field with a dataclass default for a missing key. -/
def optDictD (d : List (String × PyVal)) (k : String) :
    Option (List (String × PyVal)) :=
  match getKey d k with
  | some v => v.asDict
  | Option.none => some []

/-- String-list field with a dataclass default for a missing key. -/
def optStrListD (d : List (String × PyVal)) (k : String) : Option (List String) :=
  match getKey d k with
  | some v => v.asStrList
  | Option.none => some []

/-- String-to-string dict field with a dataclass default for a missing key. -/
def optStrPairsD (d : List (String × PyVal)) (k : String) :
    Option (List (String × String)) :=
  match getKey d k with
  | some v => v.asStrPairs
  | Option.none => some []

/-- `ResourceUsage.to_dict`. -/
def ResourceUsage.to_dict (self : ResourceUsage) : PyVal :=
  .dict [("tokens_used", .int self.tokens_used),
         ("api_calls", .int self.api_calls),
         ("time_seconds", .float self.time_seconds)]

/-- `ResourceUsage.from_dict` — `cls(**data)`; every field has a default. -/
def ResourceUsage.from_dict (data : PyVal) : Option ResourceUsage := do
  let d ← data.asDict
  let tokens_used ← optIntD d ("tokens_used") 0
  let api_calls ← optIntD d ("api_calls") 0
  let time_seconds ← optFloatD d ("time_seconds") 0
  pure { tokens_used, api_calls, time_seconds }

/-- `ResearchBudget.to_dict`. -/
def ResearchBudget.to_dict (self : ResearchBudget) : PyVal :=
  .dict [("max_tokens", .int self.max_tokens),
         ("max_time_seconds", .float self.max_time_seconds),
         ("max_api_calls", .int self.max_api_calls),
         ("max_trail_depth", .int self.max_trail_depth),
         ("current_usage", self.current_usage.to_dict),
         ("trail_depth", .int self.trail_depth)]

/-- `ResearchBudget.from_dict` — replaces `current_usage` by
`ResourceUsage.from_dict(data.get('current_usage', {}))`, then `cls(**data)`. -/
def ResearchBudget.from_dict (data : PyVal) : Option ResearchBudget := do
  let d ← data.asDict
  let current_usage ← ResourceUsage.from_dict ((getKey d ("current_usage")).getD (.dict []))
  let max_tokens ← reqInt d ("max_tokens")
  let max_time_seconds ← reqFloat d ("max_time_seconds")
  let max_api_calls ← reqInt d ("max_api_calls")
  let max_trail_depth ← reqInt d ("max_trail_depth")
  let trail_depth ← optIntD d ("trail_depth") 0
  pure { max_tokens, max_time_seconds, max_api_calls, max_trail_depth,
         current_usage, trail_depth }

/-- `models.Finding`. -/
structure Finding where
  id : String
  content : String
  source : String
  timestamp : Datetime
  confidence : ℚ := 1
  metadata : List (String × PyVal) := []

/-- `Finding.to_dict`. -/
def Finding.to_dict (self : Finding) : PyVal :=
  .dict [("id", .str self.id),
         ("content", .str self.content),
         ("source", .str self.source),
         ("timestamp", .str self.timestamp.isoformat),
         ("confidence", .float self.confidence),
         ("metadata", .dict self.metadata)]

/-- `Finding.from_dict` — converts `timestamp` with `fromisoformat`,
then `cls(**data)`. -/
def Finding.from_dict (data : PyVal) : Option Finding := do
  let d ← data.asDict
  let ts ← reqStr d ("timestamp")
  let id ← reqStr d ("id")
  let content ← reqStr d ("content")
  let source ← reqStr d ("source")
  let confidence ← optFloatD d ("confidence") 1
  let metadata ← optDictD d ("metadata")
  pure { id, content, source, timestamp := datetime_fromisoformat ts,
         confidence, metadata }

/-- `models.Gap`. -/
structure Gap where
  description : String
  priority : ℚ
  suggested_queries : List String := []

/-- `Gap.to_dict`. -/
def Gap.to_dict (self : Gap) : PyVal :=
  .dict [("description", .str self.description),
         ("priority", .float self.priority),
         ("suggested_queries", .list (self.suggested_queries.map PyVal.str))]

/-- `Gap.from_dict` — `cls(**data)`. -/
def Gap.from_dict (data : PyVal) : Option Gap := do
  let d ← data.asDict
  let description ← reqStr d ("description")
  let priority ← reqFloat d ("priority")
  let suggested_queries ← optStrListD d ("suggested_queries")
  pure { description, priority, suggested_queries }

/-- `models.QualityScore`. -/
structure QualityScore where
  completeness : ℚ
  credibility : ℚ
  relevance : ℚ
  confidence : ℚ
  overall : ℚ
  gaps_identified : List Gap := []

/-- `QualityScore.to_dict`. -/
def QualityScore.to_dict (self : QualityScore) : PyVal :=
  .dict [("completeness", .float self.completeness),
         ("credibility", .float self.credibility),
         ("relevance", .float self.relevance),
         ("confidence", .float self.confidence),
         ("overall", .float self.overall),
         ("gaps_identified", .list (self.gaps_identified.map Gap.to_dict))]

/-- `QualityScore.from_dict` — rebuilds `gaps_identified` from
`data.get('gaps_identified', [])`, then `cls(**data)`. -/
def QualityScore.from_dict (data : PyVal) : Option QualityScore := do
  let d ← data.asDict
  let gapsL ← ((getKey d ("gaps_identified")).getD (.list [])).asList
  let gaps_identified ← gapsL.mapM Gap.from_dict
  let completeness ← reqFloat d ("completeness")
  let credibility ← reqFloat d ("credibility")
  let relevance ← reqFloat d ("relevance")
  let confidence ← reqFloat d ("confidence")
  let overall ← reqFloat d ("overall")
  pure { completeness, credibility, relevance, confidence, overall,
         gaps_identified }

/-- `models.HandoffRecord`. -/
structure HandoffRecord where
  from_agent : String
  to_agent : String
  reason : String
  timestamp : Datetime
  context_summary : String

/-- `HandoffRecord.to_dict`. -/
def HandoffRecord.to_dict (self : HandoffRecord) : PyVal :=
  .dict [("from_agent", .str self.from_agent),
         ("to_agent", .str self.to_agent),
         ("reason", .str self.reason),
         ("timestamp", .str self.timestamp.isoformat),
         ("context_summary", .str self.context_summary)]

/-- `HandoffRecord.from_dict`. -/
def HandoffRecord.from_dict (data : PyVal) : Option HandoffRecord := do
  let d ← data.asDict
  let ts ← reqStr d ("timestamp")
  let from_agent ← reqStr d ("from_agent")
  let to_agent ← reqStr d ("to_agent")
  let reason ← reqStr d ("reason")
  let context_summary ← reqStr d ("context_summary")
  pure { from_agent, to_agent, reason, timestamp := datetime_fromisoformat ts,
         context_summary }

/-- `models.ResearchTrail`. -/
structure ResearchTrail where
  id : String
  origin_finding_id : Option String
  trail_query : String
  relevance_score : ℚ
  budget_allocated : ResearchBudget
  findings : List Finding := []
  status : TrailStatus := .pending
  breadcrumbs : List String := []

/-- `ResearchTrail.to_dict`. -/
def ResearchTrail.to_dict (self : ResearchTrail) : PyVal :=
  .dict [("id", .str self.id),
         ("origin_finding_id",
           match self.origin_finding_id with
           | some s => .str s
           | Option.none => .none),
         ("trail_query", .str self.trail_query),
         ("relevance_score", .float self.relevance_score),
         ("budget_allocated", self.budget_allocated.to_dict),
         ("findings", .list (self.findings.map Finding.to_dict)),
         ("status", .str self.status.value),
         ("breadcrumbs", .list (self.breadcrumbs.map PyVal.str))]

/-- `ResearchTrail.from_dict`. -/
def ResearchTrail.from_dict (data : PyVal) : Option ResearchTrail := do
  let d ← data.asDict
  let bv ← getKey d ("budget_allocated")
  let budget_allocated ← ResearchBudget.from_dict bv
  let fsL ← ((getKey d ("findings")).getD (.list [])).asList
  let findings ← fsL.mapM Finding.from_dict
  let sv ← getKey d ("status")
  let ss ← sv.asStr
  let status ← TrailStatus.of_value ss
  let id ← reqStr d ("id")
  let ov ← getKey d ("origin_finding_id")
  let origin_finding_id ← ov.asOptStr
  let trail_query ← reqStr d ("trail_query")
  let relevance_score ← reqFloat d ("relevance_score")
  let breadcrumbs ← optStrListD d ("breadcrumbs")
  pure { id, origin_finding_id, trail_query, relevance_score,
         budget_allocated, findings, status, breadcrumbs }

/-- `models.ResearchContext` (the `created_at`/`updated_at` defaults call
`datetime.now()`, so the model takes them explicitly). -/
structure ResearchContext where
  query : String
  state : ResearchState := .initializing
  clarifications : List (String × String) := []
  findings : List Finding := []
  research_trails : List ResearchTrail := []
  budget_used : ResourceUsage := {}
  quality_scores : List QualityScore := []
  handoff_history : List HandoffRecord := []
  metadata : List (String × PyVal) := []
  created_at : Datetime
  updated_at : Datetime

/-- `ResearchContext.to_dict`. -/
def ResearchContext.to_dict (self : ResearchContext) : PyVal :=
  .dict [("query", .str self.query),
         ("state", .str self.state.value),
         ("clarifications",
           .dict (self.clarifications.map (fun p => (p.1, PyVal.str p.2)))),
         ("findings", .list (self.findings.map Finding.to_dict)),
         ("research_trails", .list (self.research_trails.map ResearchTrail.to_dict)),
         ("budget_used", self.budget_used.to_dict),
         ("quality_scores", .list (self.quality_scores.map QualityScore.to_dict)),
         ("handoff_history", .list (self.handoff_history.map HandoffRecord.to_dict)),
         ("metadata", .dict self.metadata),
         ("created_at", .str self.created_at.isoformat),
         ("updated_at", .str self.updated_at.isoformat)]

/-- First half of `ResearchContext.from_dict`: the `state`, `findings` and
`research_trails` conversions (split from the single Python method only to
keep each Lean definition small; the composed semantics is unchanged). -/
def ResearchContext.from_dict_entities (d : List (String × PyVal)) :
    Option (ResearchState × List Finding × List ResearchTrail) := do
  let sv ← getKey d ("state")
  let ss ← sv.asStr
  let state ← ResearchState.of_value ss
  let fsL ← ((getKey d ("findings")).getD (.list [])).asList
  let findings ← fsL.mapM Finding.from_dict
  let trL ← ((getKey d ("research_trails")).getD (.list [])).asList
  let research_trails ← trL.mapM ResearchTrail.from_dict
  pure (state, findings, research_trails)

/-- Second half of `ResearchContext.from_dict`: the `budget_used`,
`quality_scores` and `handoff_history` conversions. -/
def ResearchContext.from_dict_records (d : List (String × PyVal)) :
    Option (ResourceUsage × List QualityScore × List HandoffRecord) := do
  let budget_used ← ResourceUsage.from_dict ((getKey d ("budget_used")).getD (.dict []))
  let qsL ← ((getKey d ("quality_scores")).getD (.list [])).asList
  let quality_scores ← qsL.mapM QualityScore.from_dict
  let hhL ← ((getKey d ("handoff_history")).getD (.list [])).asList
  let handoff_history ← hhL.mapM HandoffRecord.from_dict
  pure (budget_used, quality_scores, handoff_history)

/-- `ResearchContext.from_dict`. -/
def ResearchContext.from_dict (data : PyVal) : Option ResearchContext := do
  let d ← data.asDict
  let ents ← ResearchContext.from_dict_entities d
  let recs ← ResearchContext.from_dict_records d
  let ca ← reqStr d ("created_at")
  let ua ← reqStr d ("updated_at")
  let query ← reqStr d ("query")
  let clarifications ← optStrPairsD d ("clarifications")
  let metadata ← optDictD d ("metadata")
  pure { query, state := ents.1, clarifications, findings := ents.2.1,
         research_trails := ents.2.2, budget_used := recs.1,
         quality_scores := recs.2.1, handoff_history := recs.2.2, metadata,
         created_at := datetime_fromisoformat ca,
         updated_at := datetime_fromisoformat ua }

/-! ## state_machine.py -/

/-- `ResearchContext.update_state` (mutator; `datetime.now()` is passed in). -/
def ResearchContext.update_state (self : ResearchContext) (new_state : ResearchState)
    (now : Datetime) : ResearchContext :=
  { self with state := new_state, updated_at := now }

/-- `ResearchStateMachine.TRANSITIONS` — the fixed transition table. -/
def ResearchStateMachine.TRANSITIONS : ResearchState → List ResearchState
  | .initializing => [.clarifying, .planning, .failed]
  | .clarifying => [.planning, .failed]
  | .planning => [.searching, .failed]
  | .searching => [.evaluating, .failed]
  | .evaluating => [.trail_following, .synthesizing, .searching, .failed]
  | .trail_following => [.evaluating, .synthesizing, .failed]
  | .synthesizing => [.completed, .failed]
  | .completed => []
  | .failed => []

/-- `state_machine.ResearchStateMachine` — wraps one context plus the
in-memory `_state_history` log. -/
structure ResearchStateMachine where
  context : ResearchContext
  state_history : List ResearchState

/-- `ResearchStateMachine.__init__` — history starts at the context's state. -/
def ResearchStateMachine.init (context : ResearchContext) : ResearchStateMachine :=
  { context, state_history := [context.state] }

/-- `ResearchStateMachine.can_transition`. -/
def ResearchStateMachine.can_transition (self : ResearchStateMachine)
    (to_state : ResearchState) : Bool :=
  (ResearchStateMachine.TRANSITIONS self.context.state).contains to_state

/-- The `StateTransitionError` message raised by `transition`. -/
def ResearchStateMachine.invalid_transition_message
    (fromState toState : ResearchState) : String :=
  ("Invalid transition from ") ++ fromState.value ++ (" to ") ++ toState.value

/-- `ResearchStateMachine.transition` — raises (returned as `some` message,
machine unchanged) when the move is not in the table; otherwise updates the
context's state and appends to the history log. -/
def ResearchStateMachine.transition (self : ResearchStateMachine)
    (to_state : ResearchState) (now : Datetime) :
    ResearchStateMachine × Option String :=
  if self.can_transition to_state then
    ({ context := self.context.update_state to_state now
       state_history := self.state_history ++ [to_state] }, Option.none)
  else
    (self, some (ResearchStateMachine.invalid_transition_message
      self.context.state to_state))

/-- `ResearchStateMachine.is_terminal_state`. -/
def ResearchStateMachine.is_terminal_state (self : ResearchStateMachine) : Bool :=
  self.context.state == ResearchState.completed ||
  self.context.state == ResearchState.failed

/-! ## trail_manager.py

Python stores trail objects by reference; the manager's lists and the caller
share one object per trail id. The model stores trails by value and applies
each status mutation to every stored occurrence of the mutated id, which
agrees with the reference semantics on every state in which an id denotes one
object. `uuid.uuid4()` is passed in as the explicit `new_id` argument. -/

/-- Python `str.lower()` on the ASCII strings of this development
(`String.toLower` itself is not kernel-reducible in this toolchain, so the
model maps `Char.toLower` over the characters, which is what it does). -/
def pyLower (s : String) : String := ⟨s.data.map Char.toLower⟩

/-- `trail_manager.TrailManager` (`_active_trails`, `_completed_trails`,
`_visited_queries`, `_breadcrumbs`). -/
structure TrailManager where
  max_concurrent_trails : ℕ := 3
  active_trails : List ResearchTrail := []
  completed_trails : List ResearchTrail := []
  visited_queries : List String := []
  breadcrumbs : List String := []

/-- `TrailManager.__init__`. -/
def TrailManager.init (max_concurrent_trails : ℕ) : TrailManager :=
  { max_concurrent_trails }

/-- `TrailManager._would_create_loop`. -/
def TrailManager.would_create_loop (self : TrailManager) (query : String) : Bool :=
  self.breadcrumbs.contains (pyLower query)

/-- `TrailManager._find_trail` — active list first, then completed list. -/
def TrailManager.find_trail (self : TrailManager) (trail_id : String) :
    Option ResearchTrail :=
  match self.active_trails.find? (fun t => t.id == trail_id) with
  | some t => some t
  | Option.none => self.completed_trails.find? (fun t => t.id == trail_id)

/-- `TrailManager.create_trail` — three rejection gates in order (loop,
already-visited, concurrency cap), then append a PENDING trail and record the
lower-cased query in the visited set. -/
def TrailManager.create_trail (self : TrailManager) (new_id : String)
    (trail_query : String) (relevance_score : ℚ) (budget : ResearchBudget)
    (origin_finding_id : Option String) : Option ResearchTrail × TrailManager :=
  if self.would_create_loop trail_query then (Option.none, self)
  else if self.visited_queries.contains (pyLower trail_query) then (Option.none, self)
  else if self.max_concurrent_trails ≤ self.active_trails.length then (Option.none, self)
  else
    let trail : ResearchTrail :=
      { id := new_id, origin_finding_id, trail_query, relevance_score,
        budget_allocated := budget, status := .pending }
    (some trail,
      { self with
        active_trails := self.active_trails ++ [trail]
        visited_queries := self.visited_queries.insert (pyLower trail_query) })

/-- `TrailManager.start_trail` — requires the trail to be PENDING; flips it to
ACTIVE and adds its lower-cased query to the breadcrumbs. -/
def TrailManager.start_trail (self : TrailManager) (trail_id : String) :
    Bool × TrailManager :=
  match self.find_trail trail_id with
  | Option.none => (false, self)
  | some t =>
    if t.status ≠ .pending then (false, self)
    else
      let t' := { t with status := TrailStatus.active }
      (true,
        { self with
          active_trails := self.active_trails.map (fun u => if u.id == trail_id then t' else u)
          completed_trails := self.completed_trails.map (fun u => if u.id == trail_id then t' else u)
          breadcrumbs := self.breadcrumbs.insert (pyLower t.trail_query) })

/-- `TrailManager.complete_trail` — no status precondition: any found trail is
set to COMPLETED, removed from the active list, appended to the completed
list, and its breadcrumb removed. -/
def TrailManager.complete_trail (self : TrailManager) (trail_id : String) :
    Bool × TrailManager :=
  match self.find_trail trail_id with
  | Option.none => (false, self)
  | some t =>
    let t' := { t with status := TrailStatus.completed }
    (true,
      { self with
        active_trails := self.active_trails.filter (fun u => !(u.id == trail_id))
        completed_trails :=
          (self.completed_trails.map (fun u => if u.id == trail_id then t' else u)) ++ [t']
        breadcrumbs := self.breadcrumbs.erase (pyLower t.trail_query) })

/-- `TrailManager.abandon_trail` — like `complete_trail` with ABANDONED; the
reason is only logged. -/
def TrailManager.abandon_trail (self : TrailManager) (trail_id : String)
    (reason : String) : Bool × TrailManager :=
  match self.find_trail trail_id with
  | Option.none => (false, self)
  | some t =>
    let t' := { t with status := TrailStatus.abandoned }
    (true,
      { self with
        active_trails := self.active_trails.filter (fun u => !(u.id == trail_id))
        completed_trails :=
          (self.completed_trails.map (fun u => if u.id == trail_id then t' else u)) ++ [t']
        breadcrumbs := self.breadcrumbs.erase (pyLower t.trail_query) })

/-- `TrailManager.add_finding_to_trail`. -/
def TrailManager.add_finding_to_trail (self : TrailManager) (trail_id : String)
    (finding : Finding) : Bool × TrailManager :=
  match self.find_trail trail_id with
  | Option.none => (false, self)
  | some _ =>
    (true,
      { self with
        active_trails := self.active_trails.map
          (fun u => if u.id == trail_id then { u with findings := u.findings ++ [finding] } else u)
        completed_trails := self.completed_trails.map
          (fun u => if u.id == trail_id then { u with findings := u.findings ++ [finding] } else u) })

/-- A concrete scenario: a fresh manager holding one just-created (PENDING)
trail with id `t1`. -/
def exampleManagerPending : TrailManager :=
  ((TrailManager.init 3).create_trail ("t1") ("quantum computing") (4/5)
    ResearchBudget.create_default Option.none).2

/-! ## planner_agent.py / trail_discovery.py

`_extract_trails_from_finding` slices the finding's content at character
indices, so suggestion queries are modelled as character lists. -/

/-- `planner_agent.ResearchTrailSuggestion`. -/
structure ResearchTrailSuggestion where
  trail_query : List Char
  relevance_score : ℚ
  reason : String
  deriving Repr, DecidableEq

/-- `str.lower()` at character level. -/
def lowerStr (s : List Char) : List Char := s.map Char.toLower

/-- Python `str.find` — index of the first occurrence (`none` for Python's
−1, which the code rules out beforehand with an `in` test). -/
def findSub (needle : List Char) : List Char → Option ℕ
  | [] => if needle.isPrefixOf ([] : List Char) then some 0 else Option.none
  | c :: t =>
    if needle.isPrefixOf (c :: t) then some 0
    else (findSub needle t).map (· + 1)

/-- The fixed `tangent_indicators` list. -/
def tangent_indicators : List (List Char) :=
  [("related to").toList, ("connected to").toList, ("similar to").toList,
   ("also known as").toList, ("see also").toList, ("further reading").toList,
   ("more information").toList, ("additionally").toList, ("furthermore").toList,
   ("moreover").toList]

/-- `trail_discovery.TrailDiscovery` — `min_relevance` plus the
`_discovered_trails` set of lower-cased queries. -/
structure TrailDiscovery where
  min_relevance : ℚ := 3/5
  discovered_trails : List (List Char) := []

/-- `TrailDiscovery._extract_trails_from_finding` — one suggestion per
indicator phrase occurring in the lower-cased content: query =
`"More about: "` + first 50 chars of the excerpt
`content[max(0, idx-50) : min(len, idx+100)]` + `"..."`, relevance fixed at
0.7, reason naming the finding's source. -/
def extract_trails_from_finding (finding : Finding) (original_query : String) :
    List ResearchTrailSuggestion :=
  let content := finding.content.data
  let content_lower := lowerStr content
  tangent_indicators.filterMap (fun indicator =>
    (findSub indicator content_lower).map (fun idx =>
      let context := (content.take (min content.length (idx + 100))).drop (idx - 50)
      { trail_query := ("More about: ").toList ++ context.take 50 ++ ("...").toList
        relevance_score := 7/10
        reason := ("Found related concept in finding from ") ++ finding.source }))

/-- Stable insertion into a descending-by-relevance list: a later-processed
suggestion of equal relevance goes after the earlier ones, matching Python's
stable `sort(key=..., reverse=True)`. -/
def insertByRelevanceDesc (x : ResearchTrailSuggestion) :
    List ResearchTrailSuggestion → List ResearchTrailSuggestion
  | [] => [x]
  | y :: ys =>
    if x.relevance_score ≤ y.relevance_score then y :: insertByRelevanceDesc x ys
    else x :: y :: ys

/-- Stable descending sort by `relevance_score` (processing candidates in
list order, so ties keep their original relative order). -/
def sortByRelevanceDesc (l : List ResearchTrailSuggestion) :
    List ResearchTrailSuggestion :=
  l.foldl (fun acc x => insertByRelevanceDesc x acc) []

/-- The post-filter candidate pool of `discover_trails`: every extracted
suggestion surviving the dedup gate and then the relevance gate. -/
def TrailDiscovery.discover_pool (self : TrailDiscovery) (query : String)
    (findings : List Finding) : List ResearchTrailSuggestion :=
  let s0 := findings.flatMap (fun f => extract_trails_from_finding f query)
  let s1 := s0.filter
    (fun t => !(self.discovered_trails.contains (lowerStr t.trail_query)))
  s1.filter (fun t => decide (self.min_relevance ≤ t.relevance_score))

/-- `TrailDiscovery.discover_trails` — early return on no findings; otherwise
filter (dedup, then relevance), sort descending by relevance, truncate to
`max_trails`, and mark the returned suggestions as discovered. -/
def TrailDiscovery.discover_trails (self : TrailDiscovery) (query : String)
    (findings : List Finding) (max_trails : ℕ := 3) :
    List ResearchTrailSuggestion × TrailDiscovery :=
  if findings.isEmpty then ([], self)
  else
    let suggestions :=
      (sortByRelevanceDesc (self.discover_pool query findings)).take max_trails
    (suggestions,
      { self with
        discovered_trails := suggestions.foldl
          (fun d t => d.insert (lowerStr t.trail_query)) self.discovered_trails })

/-- A finding whose content contains the `related to` indicator. -/
def exampleFindingA : Finding :=
  { id := ("f1"), content := ("A related to alpha"), source := ("src1"),
    timestamp := ⟨("t0")⟩ }

/-- A second finding with a different excerpt around `related to`. -/
def exampleFindingB : Finding :=
  { id := ("f2"), content := ("B related to beta"), source := ("src2"),
    timestamp := ⟨("t0")⟩ }

/-! ## trail_execution.py

External effects are explicit arguments: the registry lookup
(`get_agent_for_capability`) is an `Option` of an agent id, the agent
invocation (`invoke_agent_tool`) an `Except` whose error carries `str(e)`,
and `uuid.uuid4()` / `datetime.now()` are passed in. -/

/-- The fixed `trail_search` operation built inside `execute_trail`. -/
def trail_search_op : Operation :=
  { name := ("trail_search"), estimated_tokens := 2000, estimated_api_calls := 1 }

/-- `TrailExecutionEngine._execute_trail_search` — its whole body sits inside
a `try/except` that returns `None`: both a missing search agent and a raising
`invoke_agent_tool` yield no finding (the exception does not escape). -/
def execute_trail_search (search_agent : Option String)
    (invoke_result : Except String String) (new_finding_id : String)
    (now : Datetime) (trail : ResearchTrail) : Option Finding :=
  match search_agent with
  | Option.none => Option.none
  | some _ =>
    match invoke_result with
    | .error _ => Option.none
    | .ok result =>
      some { id := new_finding_id, content := result,
             source := ("trail_search:") ++ trail.trail_query, timestamp := now,
             confidence := 7/10,
             metadata := [(("trail_id"), PyVal.str trail.id),
                          (("trail_query"), PyVal.str trail.trail_query)] }

/-- `TrailExecutionEngine.execute_trail`. In Python the `trail` argument
aliases the manager's stored object (trails come from `create_trail`), so
`trail.findings.append` plus the manager's `add_finding_to_trail` append the
finding twice to the one shared list and `consume` mutates the stored budget;
the model applies those mutations to the stored trail and returns the stored
object read back from the final manager state. -/
def execute_trail (search_agent : Option String)
    (invoke_result : Except String String) (new_finding_id : String)
    (now : Datetime) (manager : TrailManager) (trail : ResearchTrail) :
    TrailManager × ResearchTrail :=
  if (manager.start_trail trail.id).1 = false then (manager, trail)
  else
    let m1 := (manager.start_trail trail.id).2
    let t1 := (m1.find_trail trail.id).getD trail
    if t1.budget_allocated.can_afford trail_search_op = false then
      let m2 := (m1.abandon_trail trail.id ("budget exhausted")).2
      (m2, (m2.find_trail trail.id).getD t1)
    else
      match execute_trail_search search_agent invoke_result new_finding_id now t1 with
      | Option.none =>
        let m2 := (m1.complete_trail trail.id).2
        (m2, (m2.find_trail trail.id).getD t1)
      | some finding =>
        let m2 : TrailManager :=
          { m1 with
            active_trails := m1.active_trails.map (fun u =>
              if u.id == trail.id then
                { u with findings := u.findings ++ [finding, finding],
                         budget_allocated := u.budget_allocated.consume trail_search_op }
              else u)
            completed_trails := m1.completed_trails.map (fun u =>
              if u.id == trail.id then
                { u with findings := u.findings ++ [finding, finding],
                         budget_allocated := u.budget_allocated.consume trail_search_op }
              else u) }
        let m3 := (m2.complete_trail trail.id).2
        (m3, (m3.find_trail trail.id).getD t1)

/-- Fallback value for reading an `Option ResearchTrail` that is known to be
`some` in the concrete scenarios. -/
def fallbackTrail : ResearchTrail :=
  { id := (""), origin_finding_id := Option.none, trail_query := (""),
    relevance_score := 0, budget_allocated := ResearchBudget.create_default }

/-- The trail object returned by `create_trail` in the `exampleManagerPending`
scenario (in Python it aliases the manager's stored trail). -/
def examplePendingTrail : ResearchTrail :=
  (((TrailManager.init 3).create_trail ("t1") ("quantum computing") (4/5)
    ResearchBudget.create_default Option.none).1).getD fallbackTrail

/-! ## Theorems -/

/-- Characterization of `can_afford`: all three dimensions stay within caps. -/
theorem can_afford_iff (b : ResearchBudget) (op : Operation) :
    b.can_afford op = true ↔
      (b.current_usage.tokens_used + op.estimated_tokens ≤ b.max_tokens ∧
       b.current_usage.api_calls + op.estimated_api_calls ≤ b.max_api_calls ∧
       b.current_usage.time_seconds + op.estimated_time_seconds ≤ b.max_time_seconds) := by
  unfold ResearchBudget.can_afford
  split_ifs with h1 h2 h3
  · constructor
    · intro hf
      exact absurd hf (by simp)
    · rintro ⟨ha, _, _⟩
      exact absurd h1 (not_lt.mpr ha)
  · constructor
    · intro hf
      exact absurd hf (by simp)
    · rintro ⟨_, hb, _⟩
      exact absurd h2 (not_lt.mpr hb)
  · constructor
    · intro hf
      exact absurd hf (by simp)
    · rintro ⟨_, _, hc⟩
      exact absurd h3 (not_lt.mpr hc)
  · constructor
    · intro _
      exact ⟨not_lt.mp h1, not_lt.mp h2, not_lt.mp h3⟩
    · intro _
      rfl

/-- Claim C4: if `can_afford(op)` holds immediately before `consume(op)`, then
`is_exhausted()` is false immediately after, except exactly when the
operation's estimated cost equals the remaining capacity (`cap - used`) in
some dimension (tokens, api_calls, or time); stated as an equivalence. -/
theorem budget_afford_consume_exhaustion (b : ResearchBudget) (op : Operation)
    (h : b.can_afford op = true) :
    ((b.consume op).is_exhausted = true ↔
      (op.estimated_tokens = b.max_tokens - b.current_usage.tokens_used ∨
       op.estimated_api_calls = b.max_api_calls - b.current_usage.api_calls ∨
       op.estimated_time_seconds = b.max_time_seconds - b.current_usage.time_seconds)) := by
  obtain ⟨h1, h2, h3⟩ := (can_afford_iff b op).mp h
  simp only [ResearchBudget.consume, ResearchBudget.is_exhausted, ResourceUsage.add,
    Operation.to_usage, Bool.or_eq_true, decide_eq_true_eq, or_assoc]
  constructor
  · rintro (ht | ha | hs)
    · exact Or.inl (by omega)
    · exact Or.inr (Or.inl (by omega))
    · exact Or.inr (Or.inr (by linarith))
  · rintro (ht | ha | hs)
    · exact Or.inl (by omega)
    · exact Or.inr (Or.inl (by omega))
    · exact Or.inr (Or.inr (by linarith))

/-- Witness for C4: a concrete budget and operation satisfying the hypothesis. -/
theorem budget_afford_consume_exhaustion_witness :
    ((ResearchBudget.create_default.consume
        { name := ("op"), estimated_tokens := 1000 }).is_exhausted = true ↔
      ((1000 : ℤ) = ResearchBudget.create_default.max_tokens -
          ResearchBudget.create_default.current_usage.tokens_used ∨
       (1 : ℤ) = ResearchBudget.create_default.max_api_calls -
          ResearchBudget.create_default.current_usage.api_calls ∨
       (0 : ℚ) = ResearchBudget.create_default.max_time_seconds -
          ResearchBudget.create_default.current_usage.time_seconds)) :=
  budget_afford_consume_exhaustion ResearchBudget.create_default
    { name := ("op"), estimated_tokens := 1000 }
    ((can_afford_iff _ _).mpr (by norm_num [ResearchBudget.create_default]))

/-- Claim C5: for `0 < p ≤ 1`, the child budget produced by
`allocate_for_trail(p)` has caps at most the parent's *remaining* capacity in
every dimension. -/
theorem budget_allocate_child_caps_le (b : ResearchBudget) (p : ℚ)
    (h0 : 0 < p) (h1 : p ≤ 1) :
    (b.allocate_for_trail p).max_tokens ≤ b.remaining.tokens_used ∧
    (b.allocate_for_trail p).max_api_calls ≤ b.remaining.api_calls ∧
    (b.allocate_for_trail p).max_time_seconds ≤ b.remaining.time_seconds := by
  have hTok : (0 : ℤ) ≤ b.remaining.tokens_used := le_max_left 0 _
  have hApi : (0 : ℤ) ≤ b.remaining.api_calls := le_max_left 0 _
  have hTime : (0 : ℚ) ≤ b.remaining.time_seconds := le_max_left 0 _
  refine ⟨?_, ?_, ?_⟩
  · show pyInt ((b.remaining.tokens_used : ℚ) * p) ≤ b.remaining.tokens_used
    have hq : (0 : ℚ) ≤ (b.remaining.tokens_used : ℚ) * p := by positivity
    have hle : (b.remaining.tokens_used : ℚ) * p ≤ (b.remaining.tokens_used : ℚ) :=
      mul_le_of_le_one_right (by exact_mod_cast hTok) h1
    calc pyInt ((b.remaining.tokens_used : ℚ) * p)
        = ⌊(b.remaining.tokens_used : ℚ) * p⌋ := by simp [pyInt, hq]
      _ ≤ ⌊(b.remaining.tokens_used : ℚ)⌋ := Int.floor_le_floor hle
      _ = b.remaining.tokens_used := Int.floor_intCast _
  · show pyInt ((b.remaining.api_calls : ℚ) * p) ≤ b.remaining.api_calls
    have hq : (0 : ℚ) ≤ (b.remaining.api_calls : ℚ) * p := by positivity
    have hle : (b.remaining.api_calls : ℚ) * p ≤ (b.remaining.api_calls : ℚ) :=
      mul_le_of_le_one_right (by exact_mod_cast hApi) h1
    calc pyInt ((b.remaining.api_calls : ℚ) * p)
        = ⌊(b.remaining.api_calls : ℚ) * p⌋ := by simp [pyInt, hq]
      _ ≤ ⌊(b.remaining.api_calls : ℚ)⌋ := Int.floor_le_floor hle
      _ = b.remaining.api_calls := Int.floor_intCast _
  · show b.remaining.time_seconds * p ≤ b.remaining.time_seconds
    exact mul_le_of_le_one_right hTime h1

/-- Witness for C5 at the default budget and `p = 1/5`. -/
theorem budget_allocate_child_caps_le_witness :
    (ResearchBudget.create_default.allocate_for_trail (1/5)).max_tokens ≤
      ResearchBudget.create_default.remaining.tokens_used ∧
    (ResearchBudget.create_default.allocate_for_trail (1/5)).max_api_calls ≤
      ResearchBudget.create_default.remaining.api_calls ∧
    (ResearchBudget.create_default.allocate_for_trail (1/5)).max_time_seconds ≤
      ResearchBudget.create_default.remaining.time_seconds :=
  budget_allocate_child_caps_le ResearchBudget.create_default (1/5)
    (by norm_num) (by norm_num)

/-- Counterexample for C6: the depth cap does NOT monotonically shrink toward
zero, and unbounded recursive trail allocation is NOT prevented. Starting from
the default budget (`max_trail_depth = 3`) and nesting `allocate_for_trail`
ten levels deep — far beyond the depth cap — the innermost child still has
`max_trail_depth = 1` (the `max(1, ...)` floor) with a fresh `trail_depth` of
0, so `can_afford_trail` still answers `true` and yet another trail may be
allocated at every level forever. -/
theorem budget_depth_cap_counterexample :
    ((fun b => ResearchBudget.allocate_for_trail b (1/5))^[10]
        ResearchBudget.create_default).can_afford_trail = true ∧
    ((fun b => ResearchBudget.allocate_for_trail b (1/5))^[10]
        ResearchBudget.create_default).max_trail_depth = 1 := by
  constructor <;> rfl

/-- Claim C6 (amended): the child's `max_trail_depth` is
`max(1, parent.max_trail_depth - parent.trail_depth - 1)`; however, because of
the floor at 1 and because the child's own `trail_depth` starts at 0, every
child budget satisfies `can_afford_trail`, so the formula alone does not drive
the cap to zero and does not prevent unbounded recursive trail allocation. -/
theorem budget_allocate_depth_cap (b : ResearchBudget) (p : ℚ) :
    (b.allocate_for_trail p).max_trail_depth =
      max 1 (b.max_trail_depth - b.trail_depth - 1) ∧
    (b.allocate_for_trail p).trail_depth = 0 ∧
    (b.allocate_for_trail p).can_afford_trail = true := by
  refine ⟨rfl, rfl, ?_⟩
  simp only [ResearchBudget.can_afford_trail, ResearchBudget.allocate_for_trail,
    decide_eq_true_eq]
  omega

/-- `List.mapM.loop` with a decoder that inverts the encoder. -/
theorem list_enc_roundtrip_loop {α β : Type} (enc : α → β) (dec : β → Option α)
    (h : ∀ a, dec (enc a) = some a) (xs : List α) (acc : List α) :
    List.mapM.loop dec (xs.map enc) acc = some (acc.reverse ++ xs) := by
  induction xs generalizing acc with
  | nil => simp [List.mapM.loop]
  | cons a t ih => simp [List.mapM.loop, h, ih]

/-- Mapping a faithful decoder over an encoded list recovers the list. -/
theorem list_enc_roundtrip {α β : Type} (enc : α → β) (dec : β → Option α)
    (h : ∀ a, dec (enc a) = some a) (xs : List α) :
    (xs.map enc).mapM dec = some xs := by
  simpa [List.mapM] using list_enc_roundtrip_loop enc dec h xs []

/-- `asStrList` inverts the string-list encoding. -/
theorem asStrList_roundtrip (xs : List String) :
    PyVal.asStrList (.list (xs.map PyVal.str)) = some xs := by
  simpa [PyVal.asStrList, PyVal.asList] using
    list_enc_roundtrip PyVal.str PyVal.asStr (fun a => rfl) xs

/-- `asStrPairs` inverts the string-valued dict encoding. -/
theorem asStrPairs_roundtrip (ps : List (String × String)) :
    PyVal.asStrPairs (.dict (ps.map (fun p => (p.1, PyVal.str p.2)))) = some ps := by
  simp only [PyVal.asStrPairs, PyVal.asDict, Option.some_bind]
  exact @list_enc_roundtrip (String × String) (String × PyVal)
    (fun p => (p.1, PyVal.str p.2))
    (fun p => (p.2.asStr).map (fun s => (p.1, s))) (fun a => rfl) ps

/-- `fromisoformat` inverts `isoformat`. -/
theorem datetime_iso_roundtrip (d : Datetime) :
    datetime_fromisoformat d.isoformat = d := rfl

/-- `TrailStatus(status.value)` recovers the status. -/
theorem trailStatus_value_roundtrip (s : TrailStatus) :
    TrailStatus.of_value s.value = some s := by
  cases s <;> rfl

/-- `ResearchState(state.value)` recovers the state. -/
theorem researchState_value_roundtrip (s : ResearchState) :
    ResearchState.of_value s.value = some s := by
  cases s <;> rfl

/-- `ResourceUsage` round-trips through its dict form. -/
theorem resourceUsage_roundtrip (u : ResourceUsage) :
    ResourceUsage.from_dict u.to_dict = some u := rfl

/-- `ResearchBudget` round-trips through its dict form. -/
theorem researchBudget_roundtrip (b : ResearchBudget) :
    ResearchBudget.from_dict b.to_dict = some b := rfl

/-- `Finding` round-trips through its dict form. -/
theorem finding_roundtrip (f : Finding) :
    Finding.from_dict f.to_dict = some f := rfl

/-- `Gap` round-trips through its dict form. -/
theorem gap_roundtrip (g : Gap) : Gap.from_dict g.to_dict = some g := by
  cases g
  simp [Gap.to_dict, Gap.from_dict, getKey, reqStr, reqFloat, optStrListD,
    PyVal.asDict, PyVal.asStr, PyVal.asFloat, asStrList_roundtrip,
    list_enc_roundtrip_loop PyVal.str PyVal.asStr (fun a => rfl)]

/-- `QualityScore` round-trips through its dict form. -/
theorem qualityScore_roundtrip (q : QualityScore) :
    QualityScore.from_dict q.to_dict = some q := by
  cases q
  simp [QualityScore.to_dict, QualityScore.from_dict, getKey, reqFloat,
    PyVal.asDict, PyVal.asFloat, PyVal.asList,
    list_enc_roundtrip Gap.to_dict Gap.from_dict gap_roundtrip,
    list_enc_roundtrip_loop Gap.to_dict Gap.from_dict gap_roundtrip]

/-- `HandoffRecord` round-trips through its dict form. -/
theorem handoffRecord_roundtrip (h : HandoffRecord) :
    HandoffRecord.from_dict h.to_dict = some h := rfl

/-- `ResearchTrail` round-trips through its dict form. -/
theorem researchTrail_roundtrip (t : ResearchTrail) :
    ResearchTrail.from_dict t.to_dict = some t := by
  cases t with
  | mk id origin trail_query relevance budget findings status breadcrumbs =>
    cases origin <;>
      simp [ResearchTrail.to_dict, ResearchTrail.from_dict, getKey, reqStr,
        reqFloat, optStrListD, PyVal.asDict, PyVal.asStr, PyVal.asFloat,
        PyVal.asList, PyVal.asOptStr, researchBudget_roundtrip,
        trailStatus_value_roundtrip, asStrList_roundtrip,
        list_enc_roundtrip Finding.to_dict Finding.from_dict finding_roundtrip,
        list_enc_roundtrip_loop Finding.to_dict Finding.from_dict finding_roundtrip,
        list_enc_roundtrip_loop PyVal.str PyVal.asStr (fun a => rfl)]

set_option maxHeartbeats 1000000 in
/-- `ResearchContext` round-trips through its dict form. -/
theorem researchContext_roundtrip (c : ResearchContext) :
    ResearchContext.from_dict c.to_dict = some c := by
  cases c
  simp [ResearchContext.to_dict, ResearchContext.from_dict, datetime_iso_roundtrip,
    ResearchContext.from_dict_entities, ResearchContext.from_dict_records,
    getKey, reqStr, optStrPairsD, optDictD, PyVal.asDict, PyVal.asStr,
    PyVal.asList, researchState_value_roundtrip, resourceUsage_roundtrip,
    asStrPairs_roundtrip,
    list_enc_roundtrip Finding.to_dict Finding.from_dict finding_roundtrip,
    list_enc_roundtrip ResearchTrail.to_dict ResearchTrail.from_dict researchTrail_roundtrip,
    list_enc_roundtrip QualityScore.to_dict QualityScore.from_dict qualityScore_roundtrip,
    list_enc_roundtrip HandoffRecord.to_dict HandoffRecord.from_dict handoffRecord_roundtrip,
    list_enc_roundtrip_loop Finding.to_dict Finding.from_dict finding_roundtrip,
    list_enc_roundtrip_loop ResearchTrail.to_dict ResearchTrail.from_dict researchTrail_roundtrip,
    list_enc_roundtrip_loop QualityScore.to_dict QualityScore.from_dict qualityScore_roundtrip,
    list_enc_roundtrip_loop HandoffRecord.to_dict HandoffRecord.from_dict handoffRecord_roundtrip,
    @list_enc_roundtrip_loop (String × String) (String × PyVal)
      (fun p => (p.1, PyVal.str p.2))
      (fun p => (p.2.asStr).map (fun s => (p.1, s))) (fun a => rfl)]

/-- Claim C9: each of `ResearchContext`, `ResearchTrail`, `ResourceUsage`,
`QualityScore`, `Finding`, `HandoffRecord`, and `ResearchBudget` serializes
with `to_dict` and reconstructs with `from_dict` to an equal instance. -/
theorem serialization_roundtrip :
    (∀ c : ResearchContext, ResearchContext.from_dict c.to_dict = some c) ∧
    (∀ t : ResearchTrail, ResearchTrail.from_dict t.to_dict = some t) ∧
    (∀ u : ResourceUsage, ResourceUsage.from_dict u.to_dict = some u) ∧
    (∀ q : QualityScore, QualityScore.from_dict q.to_dict = some q) ∧
    (∀ f : Finding, Finding.from_dict f.to_dict = some f) ∧
    (∀ h : HandoffRecord, HandoffRecord.from_dict h.to_dict = some h) ∧
    (∀ b : ResearchBudget, ResearchBudget.from_dict b.to_dict = some b) :=
  ⟨researchContext_roundtrip, researchTrail_roundtrip, resourceUsage_roundtrip,
   qualityScore_roundtrip, finding_roundtrip, handoffRecord_roundtrip,
   researchBudget_roundtrip⟩

/-- Claim C10: `is_exhausted` is exactly the disjunction of the three usage
dimensions reaching their caps; it is invariant under the trail-depth fields
(a budget with `trail_depth ≥ max_trail_depth` is still not exhausted while
the three usage dimensions are under their caps), whereas `is_near_limit`
does count trail-depth utilization. -/
theorem budget_is_exhausted_iff (b : ResearchBudget) :
    (b.is_exhausted = true ↔
      (b.max_tokens ≤ b.current_usage.tokens_used ∨
       b.max_api_calls ≤ b.current_usage.api_calls ∨
       b.max_time_seconds ≤ b.current_usage.time_seconds)) ∧
    (∀ d md : ℤ,
      ({ b with trail_depth := d, max_trail_depth := md } : ResearchBudget).is_exhausted =
        b.is_exhausted) ∧
    (0 < b.max_trail_depth → b.max_trail_depth ≤ b.trail_depth →
      b.is_near_limit (9/10) = true) := by
  refine ⟨by simp [ResearchBudget.is_exhausted, or_assoc], fun d md => rfl, fun hpos hle => ?_⟩
  have hq : (90 : ℚ) ≤ (b.trail_depth : ℚ) / (b.max_trail_depth : ℚ) * 100 := by
    have hpos' : (0 : ℚ) < (b.max_trail_depth : ℚ) := by exact_mod_cast hpos
    have h1 : (1 : ℚ) ≤ (b.trail_depth : ℚ) / (b.max_trail_depth : ℚ) :=
      (one_le_div hpos').mpr (by exact_mod_cast hle)
    linarith
  simp only [ResearchBudget.is_near_limit, ResearchBudget.utilization_percent,
    Bool.or_eq_true, decide_eq_true_eq, or_assoc]
  refine Or.inr (Or.inr (Or.inr ?_))
  rw [if_pos hpos]
  linarith

/-- Witness for C10 at a budget whose trail depth is over its depth cap while
all three usage dimensions are strictly under their caps. -/
theorem budget_is_exhausted_iff_witness :
    ({ max_tokens := 100, max_time_seconds := 100, max_api_calls := 100,
       max_trail_depth := 2, trail_depth := 5 } : ResearchBudget).is_near_limit (9/10)
      = true :=
  (budget_is_exhausted_iff
    { max_tokens := 100, max_time_seconds := 100, max_api_calls := 100,
      max_trail_depth := 2, trail_depth := 5 }).2.2 (by norm_num) (by norm_num)

/-- Claim C7: `transition` to a target outside the current state's edge set
returns the invalid-transition error and leaves the machine (in particular the
context's state) unchanged; a target inside the edge set succeeds, updates the
context's state, and appends to the history log. -/
theorem state_machine_transition (sm : ResearchStateMachine)
    (to_state : ResearchState) (now : Datetime) :
    (to_state ∉ ResearchStateMachine.TRANSITIONS sm.context.state →
      sm.transition to_state now =
        (sm, some (ResearchStateMachine.invalid_transition_message
          sm.context.state to_state))) ∧
    (to_state ∈ ResearchStateMachine.TRANSITIONS sm.context.state →
      (sm.transition to_state now).2 = Option.none ∧
      (sm.transition to_state now).1.context.state = to_state ∧
      (sm.transition to_state now).1.state_history =
        sm.state_history ++ [to_state]) := by
  constructor
  · intro h
    simp [ResearchStateMachine.transition, ResearchStateMachine.can_transition,
      List.elem_iff, h]
  · intro h
    simp [ResearchStateMachine.transition, ResearchStateMachine.can_transition,
      List.elem_iff, h, ResearchContext.update_state]

/-- Witness for C7: from a terminal (`COMPLETED`) state, whose edge set is
empty, transitioning to `PLANNING` errors and leaves the machine unchanged;
from `INITIALIZING`, transitioning to `PLANNING` succeeds. -/
theorem state_machine_transition_witness :
    (ResearchStateMachine.init
        { query := ("q"), state := .completed,
          created_at := ⟨("t0")⟩, updated_at := ⟨("t0")⟩ }).transition
        .planning ⟨("t1")⟩ =
      ((ResearchStateMachine.init
        { query := ("q"), state := .completed,
          created_at := ⟨("t0")⟩, updated_at := ⟨("t0")⟩ }),
        some (ResearchStateMachine.invalid_transition_message .completed .planning)) ∧
    ((ResearchStateMachine.init
        { query := ("q"), state := .initializing,
          created_at := ⟨("t0")⟩, updated_at := ⟨("t0")⟩ }).transition
        .planning ⟨("t1")⟩).1.context.state = .planning :=
  ⟨(state_machine_transition _ .planning _).1 (by decide),
   ((state_machine_transition _ .planning _).2 (by decide)).2.1⟩

/-- Elements of an id-targeted list update: either the replacement, or an
untouched element whose id does not match. -/
theorem mem_update_map {l : List ResearchTrail} {tid : String}
    {t' : ResearchTrail} {u : ResearchTrail}
    (hu : u ∈ l.map (fun v => if v.id == tid then t' else v)) :
    u = t' ∨ (u ∈ l ∧ (u.id == tid) = false) := by
  obtain ⟨v, hv, hvu⟩ := List.mem_map.mp hu
  by_cases h : (v.id == tid) = true
  · left
    rw [← hvu, if_pos h]
  · right
    rw [← hvu, if_neg h]
    exact ⟨hv, by simpa using h⟩

/-- Counterexample for C3: a trail that was created (PENDING) and never
started is moved directly to COMPLETED by `complete_trail`, so a trail can
reach a terminal status straight from PENDING. -/
theorem trail_status_lifecycle_counterexample :
    exampleManagerPending.active_trails.map (fun t => t.status) = [TrailStatus.pending] ∧
    (exampleManagerPending.complete_trail ("t1")).1 = true ∧
    (exampleManagerPending.complete_trail ("t1")).2.completed_trails.map (fun t => t.status)
      = [TrailStatus.completed] :=
  ⟨rfl, rfl, rfl⟩

/-- Claim C3 (amended): `start_trail` transitions only PENDING→ACTIVE (it
fails, mutating nothing, on a missing or non-PENDING trail), but
`complete_trail` and `abandon_trail` check only that the id resolves: they
set the terminal status from any prior status, including directly from
PENDING, remove the trail from the active list, and append it to the
completed list. -/
theorem trail_status_transitions (m : TrailManager) (trail_id reason : String) :
    (m.find_trail trail_id = Option.none →
      m.start_trail trail_id = (false, m) ∧
      m.complete_trail trail_id = (false, m) ∧
      m.abandon_trail trail_id reason = (false, m)) ∧
    (∀ t, m.find_trail trail_id = some t → t.status ≠ .pending →
      m.start_trail trail_id = (false, m)) ∧
    (∀ t, m.find_trail trail_id = some t → t.status = .pending →
      (m.start_trail trail_id).1 = true ∧
      (∀ u ∈ (m.start_trail trail_id).2.active_trails,
        (u.id == trail_id) = true → u.status = .active) ∧
      (∀ u ∈ (m.start_trail trail_id).2.completed_trails,
        (u.id == trail_id) = true → u.status = .active)) ∧
    (∀ t, m.find_trail trail_id = some t →
      (m.complete_trail trail_id).1 = true ∧
      (∀ u ∈ (m.complete_trail trail_id).2.active_trails, (u.id == trail_id) = false) ∧
      (∀ u ∈ (m.complete_trail trail_id).2.completed_trails,
        (u.id == trail_id) = true → u.status = .completed)) ∧
    (∀ t, m.find_trail trail_id = some t →
      (m.abandon_trail trail_id reason).1 = true ∧
      (∀ u ∈ (m.abandon_trail trail_id reason).2.completed_trails,
        (u.id == trail_id) = true → u.status = .abandoned)) := by
  refine ⟨?_, ?_, ?_, ?_, ?_⟩
  · intro h
    refine ⟨?_, ?_, ?_⟩ <;>
      simp [TrailManager.start_trail, TrailManager.complete_trail,
        TrailManager.abandon_trail, h]
  · intro t ht hs
    simp [TrailManager.start_trail, ht, hs]
  · intro t ht hs
    refine ⟨by simp [TrailManager.start_trail, ht, hs], ?_, ?_⟩
    · simp only [TrailManager.start_trail, ht, hs, ne_eq, not_true_eq_false,
        if_false]
      intro u hu hid
      rcases mem_update_map hu with rfl | ⟨_, hf⟩
      · rfl
      · rw [hid] at hf
        exact Bool.noConfusion hf
    · simp only [TrailManager.start_trail, ht, hs, ne_eq, not_true_eq_false,
        if_false]
      intro u hu hid
      rcases mem_update_map hu with rfl | ⟨_, hf⟩
      · rfl
      · rw [hid] at hf
        exact Bool.noConfusion hf
  · intro t ht
    refine ⟨by simp [TrailManager.complete_trail, ht], ?_, ?_⟩
    · simp only [TrailManager.complete_trail, ht]
      intro u hu
      have := List.of_mem_filter hu
      simpa using this
    · simp only [TrailManager.complete_trail, ht]
      intro u hu hid
      rcases List.mem_append.mp hu with hmem | hmem
      · rcases mem_update_map hmem with rfl | ⟨_, hf⟩
        · rfl
        · rw [hid] at hf
          exact Bool.noConfusion hf
      · rw [List.mem_singleton.mp hmem]
  · intro t ht
    refine ⟨by simp [TrailManager.abandon_trail, ht], ?_⟩
    simp only [TrailManager.abandon_trail, ht]
    intro u hu hid
    rcases List.mem_append.mp hu with hmem | hmem
    · rcases mem_update_map hmem with rfl | ⟨_, hf⟩
      · rfl
      · rw [hid] at hf
        exact Bool.noConfusion hf
    · rw [List.mem_singleton.mp hmem]

/-- Witness for the amended C3 at the concrete PENDING-trail scenario. -/
theorem trail_status_transitions_witness :
    (exampleManagerPending.complete_trail ("t1")).1 = true :=
  ((trail_status_transitions exampleManagerPending ("t1") ("r")).2.2.2.1 _ (by rfl)).1

/-- Claim C8: `create_trail` returns nothing and leaves the manager fully
unchanged whenever the query case-insensitively matches a breadcrumb, or was
visited before, or the active list is at the concurrency cap (regardless of
relevance score, which no gate consults); after a successful creation the
active list grew by one and any later `create_trail` with a case-insensitively
equal query returns nothing and leaves the manager unchanged. -/
theorem trail_manager_create_rejections (m : TrailManager)
    (new_id trail_query : String) (relevance_score : ℚ)
    (budget : ResearchBudget) (origin_finding_id : Option String) :
    ((m.would_create_loop trail_query = true ∨
      pyLower trail_query ∈ m.visited_queries ∨
      m.max_concurrent_trails ≤ m.active_trails.length) →
      m.create_trail new_id trail_query relevance_score budget origin_finding_id
        = (Option.none, m)) ∧
    (∀ t m₁,
      m.create_trail new_id trail_query relevance_score budget origin_finding_id
        = (some t, m₁) →
      m₁.active_trails.length = m.active_trails.length + 1 ∧
      ∀ id2 q2 rel2 b2 o2, pyLower q2 = pyLower trail_query →
        m₁.create_trail id2 q2 rel2 b2 o2 = (Option.none, m₁)) := by
  constructor
  · intro h
    unfold TrailManager.create_trail
    by_cases c1 : m.would_create_loop trail_query = true
    · simp [c1]
    · by_cases c2 : pyLower trail_query ∈ m.visited_queries
      · simp [c1, c2]
      · have c3 : m.max_concurrent_trails ≤ m.active_trails.length := by
          rcases h with h | h | h
          · exact absurd h c1
          · exact absurd h c2
          · exact h
        simp [c1, c2, c3]
  · intro t m₁ h
    unfold TrailManager.create_trail at h
    by_cases c1 : m.would_create_loop trail_query = true
    · simp [c1] at h
    · by_cases c2 : pyLower trail_query ∈ m.visited_queries
      · simp [c1, c2] at h
      · by_cases c3 : m.max_concurrent_trails ≤ m.active_trails.length
        · simp [c1, c2, c3] at h
        · simp [c1, c2, c3, Prod.ext_iff] at h
          obtain ⟨ht, hm⟩ := h
          subst hm
          constructor
          · simp
          · intro id2 q2 rel2 b2 o2 hq
            unfold TrailManager.create_trail
            by_cases d1 : pyLower q2 ∈ m.breadcrumbs
            · simp [TrailManager.would_create_loop, d1]
            · simp [TrailManager.would_create_loop, d1, hq, List.mem_insert_iff]

/-- Witness for C8: in a fresh manager, creating a trail for `Quantum` and
then one for `quantum` — the second call returns nothing, the manager state is
unchanged, and the active list stays at one entry. -/
theorem trail_manager_create_rejections_witness :
    ((TrailManager.init 3).create_trail ("id1") ("Quantum") (1/2)
        ResearchBudget.create_default Option.none).2.create_trail ("id2")
        ("quantum") (1/2) ResearchBudget.create_default Option.none
      = (Option.none,
         ((TrailManager.init 3).create_trail ("id1") ("Quantum") (1/2)
            ResearchBudget.create_default Option.none).2) ∧
    ((TrailManager.init 3).create_trail ("id1") ("Quantum") (1/2)
        ResearchBudget.create_default Option.none).2.active_trails.length
      = (TrailManager.init 3).active_trails.length + 1 :=
  have h := (trail_manager_create_rejections (TrailManager.init 3) ("id1")
    ("Quantum") (1/2) ResearchBudget.create_default Option.none).2 _ _ rfl
  ⟨h.2 ("id2") ("quantum") (1/2) ResearchBudget.create_default Option.none
    (by rfl), h.1⟩

/-- Membership in a stable descending insertion. -/
theorem mem_insertByRelevanceDesc {x y : ResearchTrailSuggestion}
    {l : List ResearchTrailSuggestion} :
    y ∈ insertByRelevanceDesc x l ↔ y = x ∨ y ∈ l := by
  induction l with
  | nil => simp [insertByRelevanceDesc]
  | cons z t ih =>
    by_cases h : x.relevance_score ≤ z.relevance_score
    · simp only [insertByRelevanceDesc, if_pos h, List.mem_cons, ih]
      try tauto
    · simp only [insertByRelevanceDesc, if_neg h, List.mem_cons]
      try tauto

/-- Membership through the sorting fold. -/
theorem mem_sort_foldl (l : List ResearchTrailSuggestion)
    (acc : List ResearchTrailSuggestion) (y : ResearchTrailSuggestion) :
    y ∈ l.foldl (fun a x => insertByRelevanceDesc x a) acc ↔ y ∈ acc ∨ y ∈ l := by
  induction l generalizing acc with
  | nil => simp
  | cons x t ih =>
    simp only [List.foldl_cons, ih, mem_insertByRelevanceDesc, List.mem_cons]
    tauto

/-- The stable descending sort permutes its input (membership view). -/
theorem mem_sortByRelevanceDesc {l : List ResearchTrailSuggestion}
    {y : ResearchTrailSuggestion} : y ∈ sortByRelevanceDesc l ↔ y ∈ l := by
  simpa [sortByRelevanceDesc] using mem_sort_foldl l [] y

/-- Membership in the discovered-set fold: the old entries plus the lowered
queries of exactly the folded suggestions. -/
theorem mem_mark_foldl (l : List ResearchTrailSuggestion)
    (d : List (List Char)) (s : List Char) :
    s ∈ l.foldl (fun d t => d.insert (lowerStr t.trail_query)) d ↔
      s ∈ d ∨ ∃ u ∈ l, lowerStr u.trail_query = s := by
  induction l generalizing d with
  | nil => simp
  | cons x t ih =>
    simp only [List.foldl_cons, ih, List.mem_insert_iff, List.mem_cons]
    constructor
    · rintro (⟨h | h⟩ | ⟨u, hu, hs⟩)
      · exact Or.inr ⟨x, Or.inl rfl, h.symm⟩
      · exact Or.inl h
      · exact Or.inr ⟨u, Or.inr hu, hs⟩
    · rintro (h | ⟨u, (rfl | hu), hs⟩)
      · exact Or.inl (Or.inr h)
      · exact Or.inl (Or.inl hs.symm)
      · exact Or.inr ⟨u, hu, hs⟩

/-- Counterexample for C1: with `max_trails = 1`, both candidate suggestions
survive the dedup and relevance filters of the first call (both are in the
post-filter pool), but only the returned one is marked discovered; the
suggestion trimmed purely by the count cap resurfaces: the second identical
call returns it. -/
theorem trail_discovery_resurface_counterexample :
    ((({} : TrailDiscovery).discover_trails ("alpha query")
        [exampleFindingA, exampleFindingB] 1).1.map (fun t => t.trail_query)
      = [("More about: A related to alpha...").toList]) ∧
    (((({} : TrailDiscovery).discover_trails ("alpha query")
        [exampleFindingA, exampleFindingB] 1).2.discover_trails ("alpha query")
        [exampleFindingA, exampleFindingB] 1).1.map (fun t => t.trail_query)
      = [("More about: B related to beta...").toList]) ∧
    (("More about: B related to beta...").toList ∈
      ((({} : TrailDiscovery).discover_pool ("alpha query")
        [exampleFindingA, exampleFindingB]).map (fun t => t.trail_query))) :=
  ⟨rfl, rfl, by decide⟩

/-- Claim C1 (amended): `discover_trails` adds to the dedup set exactly the
lowered queries of the suggestions it returns (the top `max_trails` after
truncation) — a survivor trimmed by the count cap is not marked and can be
returned by a later call; every returned suggestion does come from the
post-filter candidate pool, and a query returned once is never returned by a
later call on the same instance. -/
theorem trail_discovery_marking (td : TrailDiscovery) (query : String)
    (findings : List Finding) (max_trails : ℕ) :
    (∀ s, s ∈ (td.discover_trails query findings max_trails).2.discovered_trails ↔
      s ∈ td.discovered_trails ∨
      ∃ u ∈ (td.discover_trails query findings max_trails).1,
        lowerStr u.trail_query = s) ∧
    (∀ u ∈ (td.discover_trails query findings max_trails).1,
      u ∈ td.discover_pool query findings) ∧
    (∀ u ∈ (td.discover_trails query findings max_trails).1,
      ∀ q2 fs2 m2,
        ∀ v ∈ ((td.discover_trails query findings max_trails).2.discover_trails
            q2 fs2 m2).1,
          lowerStr v.trail_query ≠ lowerStr u.trail_query) := by
  by_cases hf : findings.isEmpty
  · refine ⟨?_, ?_, ?_⟩
    · intro s
      simp [TrailDiscovery.discover_trails, hf]
    · intro u hu
      simp [TrailDiscovery.discover_trails, hf] at hu
    · intro u hu
      simp [TrailDiscovery.discover_trails, hf] at hu
  · have hret : (td.discover_trails query findings max_trails).1 =
        (sortByRelevanceDesc (td.discover_pool query findings)).take max_trails := by
      simp [TrailDiscovery.discover_trails, hf]
    have hdisc : (td.discover_trails query findings max_trails).2.discovered_trails =
        (td.discover_trails query findings max_trails).1.foldl
          (fun d t => d.insert (lowerStr t.trail_query)) td.discovered_trails := by
      simp [TrailDiscovery.discover_trails, hf]
    refine ⟨?_, ?_, ?_⟩
    · intro s
      rw [hdisc, mem_mark_foldl]
    · intro u hu
      rw [hret] at hu
      exact mem_sortByRelevanceDesc.mp (List.mem_of_mem_take hu)
    · intro u hu q2 fs2 m2 v hv heq
      by_cases hf2 : fs2.isEmpty
      · simp [TrailDiscovery.discover_trails, hf2] at hv
      · have h2 : ((td.discover_trails query findings max_trails).2.discover_trails
            q2 fs2 m2).1 =
            (sortByRelevanceDesc ((td.discover_trails query findings
              max_trails).2.discover_pool q2 fs2)).take m2 := by
          simp [TrailDiscovery.discover_trails, hf2]
        rw [h2] at hv
        have hv2 := mem_sortByRelevanceDesc.mp (List.mem_of_mem_take hv)
        simp only [TrailDiscovery.discover_pool] at hv2
        have hdedup := List.of_mem_filter (List.mem_of_mem_filter hv2)
        have hnot : lowerStr v.trail_query ∉
            (td.discover_trails query findings max_trails).2.discovered_trails := by
          simpa using hdedup
        have hmarked : lowerStr u.trail_query ∈
            (td.discover_trails query findings max_trails).2.discovered_trails := by
          rw [hdisc, mem_mark_foldl]
          exact Or.inr ⟨u, hu, rfl⟩
        rw [heq] at hnot
        exact hnot hmarked

/-- Witness for the amended C1 at the concrete two-finding scenario: the
suggestion returned by the second call differs (case-insensitively) from the
one returned by the first call. -/
theorem trail_discovery_marking_witness :
    lowerStr (("More about: B related to beta...").toList) ≠
      lowerStr (("More about: A related to alpha...").toList) :=
  (trail_discovery_marking {} ("alpha query") [exampleFindingA, exampleFindingB] 1).2.2
    { trail_query := ("More about: A related to alpha...").toList
      relevance_score := 7/10
      reason := ("Found related concept in finding from src1") }
    (by decide) ("alpha query") [exampleFindingA, exampleFindingB] 1
    { trail_query := ("More about: B related to beta...").toList
      relevance_score := 7/10
      reason := ("Found related concept in finding from src2") }
    (by decide)

/-- `Option.or` of a hit. -/
theorem option_some_or {α : Type} (a : α) (o : Option α) :
    (some a).or o = some a := rfl

/-- `Option.or` of a miss. -/
theorem option_none_or {α : Type} (o : Option α) :
    (Option.none : Option α).or o = o := rfl

/-- `_find_trail` as a first-of-two-searches expression. -/
theorem find_trail_eq (m : TrailManager) (tid : String) :
    m.find_trail tid = (m.active_trails.find? (fun u => u.id == tid)).or
      (m.completed_trails.find? (fun u => u.id == tid)) := by
  unfold TrailManager.find_trail
  cases hA : m.active_trails.find? (fun u => u.id == tid) <;> rfl

/-- The trail found by id satisfies the id predicate. -/
theorem find_trail_id {m : TrailManager} {tid : String} {t : ResearchTrail}
    (hfind : m.find_trail tid = some t) : (t.id == tid) = true := by
  rw [find_trail_eq] at hfind
  cases hA : m.active_trails.find? (fun u => u.id == tid) with
  | some a =>
    rw [hA, option_some_or] at hfind
    cases hfind
    simpa using List.find?_some hA
  | none =>
    rw [hA, option_none_or] at hfind
    simpa using List.find?_some hfind

/-- `find?` over an id-targeted update when some element was found. -/
theorem find?_map_update {l : List ResearchTrail} {tid : String}
    {t t' : ResearchTrail}
    (hf : l.find? (fun u => u.id == tid) = some t) (h : (t'.id == tid) = true) :
    (l.map (fun u => if u.id == tid then t' else u)).find? (fun u => u.id == tid)
      = some t' := by
  induction l with
  | nil => cases hf
  | cons a l ih =>
    by_cases ha : (a.id == tid) = true
    · rw [List.map_cons, if_pos ha, List.find?_cons, h]
    · have ha' : (a.id == tid) = false := by simpa using ha
      rw [List.find?_cons, ha'] at hf
      rw [List.map_cons, if_neg ha, List.find?_cons, ha']
      exact ih hf

/-- `find?` over an id-targeted update when the id is absent. -/
theorem find?_map_update_none {l : List ResearchTrail} {tid : String}
    {t' : ResearchTrail}
    (hf : l.find? (fun u => u.id == tid) = Option.none) :
    (l.map (fun u => if u.id == tid then t' else u)).find? (fun u => u.id == tid)
      = Option.none := by
  rw [List.find?_eq_none] at hf ⊢
  intro x hx
  obtain ⟨v, hv, rfl⟩ := List.mem_map.mp hx
  have hnv := hf v hv
  rw [if_neg hnv]
  exact hnv

/-- `find?` over the id-removal filter. -/
theorem find?_filter_ne (l : List ResearchTrail) (tid : String) :
    (l.filter (fun u => !(u.id == tid))).find? (fun u => u.id == tid)
      = Option.none := by
  rw [List.find?_eq_none]
  intro x hx
  have hb := List.of_mem_filter hx
  simp at hb
  simp [hb]

/-- `start_trail` on a found PENDING trail: returns true and the stored
object is now ACTIVE. -/
theorem start_trail_spec (m : TrailManager) (tid : String) (t : ResearchTrail)
    (hfind : m.find_trail tid = some t) (hs : t.status = .pending) :
    (m.start_trail tid).1 = true ∧
    (m.start_trail tid).2.find_trail tid
      = some { t with status := TrailStatus.active } := by
  have hid : ((({ t with status := TrailStatus.active } : ResearchTrail)).id == tid)
      = true := @find_trail_id m tid t hfind
  refine ⟨by simp [TrailManager.start_trail, hfind, hs], ?_⟩
  simp only [TrailManager.start_trail, hfind, hs, ne_eq, not_true_eq_false,
    Bool.false_eq_true, if_false]
  rw [find_trail_eq]
  dsimp only
  cases hA : m.active_trails.find? (fun u => u.id == tid) with
  | some a =>
    rw [find?_map_update hA hid, option_some_or]
  | none =>
    rw [find_trail_eq, hA, option_none_or] at hfind
    rw [find?_map_update_none hA, option_none_or, find?_map_update hfind hid]

/-- `complete_trail` on a found trail: returns true, the stored object is now
COMPLETED (whatever its prior status), it is gone from the active list, and
every completed-list entry with its id is the completed object. -/
theorem complete_trail_spec (m : TrailManager) (tid : String) (t : ResearchTrail)
    (hfind : m.find_trail tid = some t) :
    (m.complete_trail tid).1 = true ∧
    (m.complete_trail tid).2.find_trail tid
      = some { t with status := TrailStatus.completed } ∧
    (∀ u ∈ (m.complete_trail tid).2.active_trails, (u.id == tid) = false) ∧
    (∀ u ∈ (m.complete_trail tid).2.completed_trails,
      (u.id == tid) = true → u = { t with status := TrailStatus.completed }) := by
  have hid : ((({ t with status := TrailStatus.completed } : ResearchTrail)).id == tid)
      = true := @find_trail_id m tid t hfind
  refine ⟨by simp [TrailManager.complete_trail, hfind], ?_, ?_, ?_⟩
  · simp only [TrailManager.complete_trail, hfind]
    rw [find_trail_eq]
    dsimp only
    rw [find?_filter_ne, option_none_or, List.find?_append]
    cases hB : m.completed_trails.find? (fun u => u.id == tid) with
    | some b =>
      rw [find?_map_update hB hid, option_some_or]
    | none =>
      rw [find?_map_update_none hB, option_none_or]
      rw [List.find?_cons, hid]
  · simp only [TrailManager.complete_trail, hfind]
    intro u hu
    have hb := List.of_mem_filter hu
    simp at hb
    simp [hb]
  · simp only [TrailManager.complete_trail, hfind]
    intro u hu hp
    rcases List.mem_append.mp hu with hmem | hmem
    · rcases mem_update_map hmem with rfl | ⟨_, hf⟩
      · rfl
      · rw [hp] at hf
        exact Bool.noConfusion hf
    · exact List.mem_singleton.mp hmem

/-- Counterexample for C2: a trail whose single search invocation fails (the
agent call raises) ends COMPLETED with zero findings — not ABANDONED — because
`_execute_trail_search` swallows the exception and returns `None`, after which
`execute_trail` takes the normal completion path. -/
theorem trail_execution_failure_counterexample :
    (execute_trail (some ("search")) (Except.error ("boom")) ("f9") ⟨("t9")⟩
        exampleManagerPending examplePendingTrail).2.status = TrailStatus.completed ∧
    ¬((execute_trail (some ("search")) (Except.error ("boom")) ("f9") ⟨("t9")⟩
        exampleManagerPending examplePendingTrail).2.status = TrailStatus.abandoned) ∧
    (execute_trail (some ("search")) (Except.error ("boom")) ("f9") ⟨("t9")⟩
        exampleManagerPending examplePendingTrail).2.findings = [] ∧
    (execute_trail (some ("search")) (Except.error ("boom")) ("f9") ⟨("t9")⟩
        exampleManagerPending examplePendingTrail).1.completed_trails.map
      (fun u => u.status) = [TrailStatus.completed] :=
  ⟨rfl, by decide, rfl, rfl⟩

/-- Claim C2 (amended): when the search invocation raises, the exception is
caught inside `_execute_trail_search` (it never propagates) and no finding is
produced, but `execute_trail` then completes the trail: the trail ends
COMPLETED with its findings unchanged, removed from the active list; the
abandon-with-error-message path is unreachable for invocation failures. -/
theorem trail_execution_invocation_failure (sa e fid : String) (now : Datetime)
    (m : TrailManager) (t : ResearchTrail)
    (hfind : m.find_trail t.id = some t) (hs : t.status = .pending)
    (hafford : t.budget_allocated.can_afford trail_search_op = true) :
    (execute_trail (some sa) (Except.error e) fid now m t).2.status
      = TrailStatus.completed ∧
    (execute_trail (some sa) (Except.error e) fid now m t).2.findings = t.findings ∧
    (∀ u ∈ (execute_trail (some sa) (Except.error e) fid now m t).1.active_trails,
      (u.id == t.id) = false) ∧
    (∀ u ∈ (execute_trail (some sa) (Except.error e) fid now m t).1.completed_trails,
      (u.id == t.id) = true → u.status = TrailStatus.completed) := by
  obtain ⟨hs1, hf1⟩ := start_trail_spec m t.id t hfind hs
  have hafford' : (ResearchBudget.can_afford
      (({ t with status := TrailStatus.active } : ResearchTrail)).budget_allocated
      trail_search_op) = true := hafford
  obtain ⟨hc1, hcf, hca, hcc⟩ := complete_trail_spec (m.start_trail t.id).2 t.id
    { t with status := TrailStatus.active } hf1
  have hred : execute_trail (some sa) (Except.error e) fid now m t =
      (((m.start_trail t.id).2.complete_trail t.id).2,
       ((((m.start_trail t.id).2.complete_trail t.id).2.find_trail t.id).getD
         { t with status := TrailStatus.active })) := by
    unfold execute_trail
    simp [hs1, hf1, hafford', execute_trail_search]
  rw [hred]
  refine ⟨?_, ?_, ?_, ?_⟩
  · simp [hcf]
  · simp [hcf]
  · exact hca
  · intro u hu hp
    rw [hcc u hu hp]

/-- Witness for the amended C2 at the concrete pending-trail scenario. -/
theorem trail_execution_invocation_failure_witness :
    (execute_trail (some ("search")) (Except.error ("boom")) ("f9") ⟨("t9")⟩
        exampleManagerPending examplePendingTrail).2.status
      = TrailStatus.completed ∧
    (execute_trail (some ("search")) (Except.error ("boom")) ("f9") ⟨("t9")⟩
        exampleManagerPending examplePendingTrail).2.findings
      = examplePendingTrail.findings :=
  have h := trail_execution_invocation_failure ("search") ("boom") ("f9") ⟨("t9")⟩
    exampleManagerPending examplePendingTrail (by rfl) (by rfl) (by rfl)
  ⟨h.1, h.2.1⟩

end DeepResearch
